import Mathlib

/-!
Verification of the sampling and resource-accounting engine of a
`/proc`-based interactive process monitor (sysmon).

The development shallowly embeds the relevant parts of `Main.cpp`:

* `ProcInfo` and `SystemSnapshot` mirror the two C++ structs (machine
  integers become `Nat`/`Int`, `double` becomes `ℚ`);
* `compute_cpu_mem_percent` mirrors the resource accountant: the C++
  function mutates the current process map in place, which we embed as a
  pure function from the current association list to a fresh one;
* `derive_num_cpus` mirrors the cpu-count derivation inside
  `read_system_snapshot`;
* `pageStep` / `runOffsets` mirror the scroll-offset handling of the
  refresh loop in `main`.
-/

set_option autoImplicit false

namespace SysMon

/-- Mirror of `struct ProcInfo` (Main.cpp lines 28-39).  Field defaults
mirror the C++ default member initializers.  `cpu_percent` and
`mem_percent` are the derived metrics; `double` is embedded as `ℚ`. -/
structure ProcInfo where
  pid : Int := 0
  user : String := ""
  cmd : String := ""
  utime : Nat := 0
  stime : Nat := 0
  cutime : Nat := 0
  cstime : Nat := 0
  total_time : Nat := 0
  vsize : Nat := 0
  rss : Int := 0
  cpu_percent : ℚ := 0
  mem_percent : ℚ := 0
  starttime : Nat := 0
  deriving Repr, DecidableEq

/-- Mirror of `struct SystemSnapshot` (Main.cpp lines 41-47).
`num_cpus` is a C `int`, hence `Int`; its default is 1 as in the source. -/
structure SystemSnapshot where
  total_jiffies : Nat := 0
  mem_total_kb : Nat := 0
  mem_free_kb : Nat := 0
  mem_available_kb : Nat := 0
  num_cpus : Int := 1
  deriving Repr, DecidableEq

/-- The process map `std::map<int, ProcInfo>` is embedded as an
association list keyed by pid. -/
abbrev ProcMap := List (Int × ProcInfo)

/-- Mirror of the `total_diff` computation in `compute_cpu_mem_percent`
(Main.cpp lines 170-173): the total-jiffies delta, clamped to zero when
the counter regresses. -/
def totalDiff (cur_snap prev_snap : SystemSnapshot) : Nat :=
  if cur_snap.total_jiffies ≥ prev_snap.total_jiffies then
    cur_snap.total_jiffies - prev_snap.total_jiffies
  else 0

/-- Mirror of the per-process loop body of `compute_cpu_mem_percent`
(Main.cpp lines 177-194): reset both derived percentages, set
`cpu_percent` from the clamped tick delta when the pid existed in the
previous map and the total delta is positive, and set `mem_percent` from
resident pages when total memory is positive. -/
def accountProc (page_size_kb : Int) (prev : ProcMap)
    (cur_snap : SystemSnapshot) (total_diff : Nat)
    (pid : Int) (p0 : ProcInfo) : ProcInfo :=
  let p1 := { p0 with cpu_percent := 0, mem_percent := 0 }
  let p2 :=
    match prev.lookup pid with
    | some prevEntry =>
        if total_diff > 0 then
          let diff : Nat :=
            if p1.total_time ≥ prevEntry.total_time then
              p1.total_time - prevEntry.total_time
            else 0
          { p1 with cpu_percent :=
              (diff : ℚ) / (total_diff : ℚ) * 100 * (cur_snap.num_cpus : ℚ) }
        else p1
    | none => p1
  let rss_kb : Int := p2.rss * page_size_kb
  if cur_snap.mem_total_kb > 0 then
    { p2 with mem_percent :=
        (rss_kb : ℚ) / (cur_snap.mem_total_kb : ℚ) * 100 }
  else p2

/-- Mirror of `compute_cpu_mem_percent` (Main.cpp lines 166-195).  The
C++ function mutates each entry of the current map `procs` in place; we
return the updated association list.  `page_size_kb` abstracts the
`sysconf(_SC_PAGESIZE) / 1024` constant. -/
def compute_cpu_mem_percent (page_size_kb : Int)
    (procs prev : ProcMap)
    (cur_snap prev_snap : SystemSnapshot) : ProcMap :=
  let total_diff := totalDiff cur_snap prev_snap
  procs.map (fun kv =>
    (kv.1, accountProc page_size_kb prev cur_snap total_diff kv.1 kv.2))

/-- Mirror of the cpu-count counting in `read_system_snapshot`
(Main.cpp lines 85-89): the number of `/proc/cpuinfo` lines that start
with `processor` (`line.rfind("processor", 0) == 0`). -/
def count_processor_lines (lines : List String) : Nat :=
  (lines.filter (fun line => line.startsWith "processor")).length

/-- Mirror of `s.num_cpus = std::max(1, cpus)` (Main.cpp line 91). -/
def derive_num_cpus (lines : List String) : Int :=
  max 1 (count_processor_lines lines : Int)

/-- Keyboard events relevant to the pagination state of the refresh loop
(Main.cpp lines 257-263): arrow down, arrow up, or anything else
(including no key this cycle). -/
inductive Key where
  | down
  | up
  | other
  deriving Repr, DecidableEq

/-- One cycle's effect on the scroll offset (Main.cpp lines 261-262):
`KEY_DOWN` increments only while `offset + pageSize < count`, `KEY_UP`
decrements only while `offset > 0`, everything else leaves it alone.
`count` is the length of the ranked list of the current cycle and
`pageSize` is `rows - 3`. -/
def pageStep (pageSize : Int) (count : Nat) (offset : Int) (k : Key) : Int :=
  match k with
  | .down => if offset + pageSize < (count : Int) then offset + 1 else offset
  | .up => if offset > 0 then offset - 1 else offset
  | .other => offset

/-- The offset after a sequence of refresh cycles, each carrying the
length of that cycle's ranked list and the key observed that cycle.
The loop starts with `offset = 0` (Main.cpp line 235). -/
def runOffsets (pageSize : Int) (events : List (Nat × Key)) : Int :=
  events.foldl (fun off e => pageStep pageSize e.1 off e.2) 0

/-! ### Helper lemmas about the accountant -/

/-- Looking a pid up in the accountant's output is looking it up in the
current map and applying the per-process body. -/
theorem compute_lookup (page_size_kb : Int) (procs prev : ProcMap)
    (cur_snap prev_snap : SystemSnapshot) (pid : Int) :
    (compute_cpu_mem_percent page_size_kb procs prev cur_snap prev_snap).lookup pid =
      (procs.lookup pid).map
        (accountProc page_size_kb prev cur_snap (totalDiff cur_snap prev_snap) pid) := by
  induction procs with
  | nil => rfl
  | cons kv t ih =>
      obtain ⟨k, v⟩ := kv
      simp only [compute_cpu_mem_percent, List.map_cons, List.lookup] at *
      by_cases h : pid == k
      · have hk : pid = k := by simpa using h
        subst hk
        simp [h]
      · simp [h, ih]

/-- The `mem_percent` produced by the per-process body depends only on
current data: the entry's resident page count, the page size, and the
current snapshot's total memory. -/
theorem accountProc_mem_percent (page_size_kb : Int) (prev : ProcMap)
    (cur_snap : SystemSnapshot) (total_diff : Nat) (pid : Int) (p : ProcInfo) :
    (accountProc page_size_kb prev cur_snap total_diff pid p).mem_percent =
      if cur_snap.mem_total_kb > 0 then
        ((p.rss * page_size_kb : Int) : ℚ) / (cur_snap.mem_total_kb : ℚ) * 100
      else 0 := by
  simp only [accountProc]
  cases prev.lookup pid with
  | none => split <;> rfl
  | some q =>
      by_cases h : total_diff > 0 <;> simp [h] <;> split <;> rfl

/-- The `cpu_percent` produced by the per-process body: zero unless the
pid was present in the previous map and the total tick delta is
positive, in which case it is the clamped tick delta scaled by the
total delta and the cpu count. -/
theorem accountProc_cpu_percent (page_size_kb : Int) (prev : ProcMap)
    (cur_snap : SystemSnapshot) (total_diff : Nat) (pid : Int) (p : ProcInfo) :
    (accountProc page_size_kb prev cur_snap total_diff pid p).cpu_percent =
      match prev.lookup pid with
      | some q =>
          if total_diff > 0 then
            ((if p.total_time ≥ q.total_time then p.total_time - q.total_time else 0 : Nat) : ℚ)
              / (total_diff : ℚ) * 100 * (cur_snap.num_cpus : ℚ)
          else 0
      | none => 0 := by
  simp only [accountProc]
  cases prev.lookup pid with
  | none => split <;> rfl
  | some q =>
      by_cases h : total_diff > 0 <;> simp [h] <;> split <;> rfl

/-- The per-process body touches only the two derived percentage
fields; every other field of the entry is returned unchanged. -/
theorem accountProc_frame (page_size_kb : Int) (prev : ProcMap)
    (cur_snap : SystemSnapshot) (total_diff : Nat) (pid : Int) (p : ProcInfo) :
    (accountProc page_size_kb prev cur_snap total_diff pid p).pid = p.pid ∧
    (accountProc page_size_kb prev cur_snap total_diff pid p).user = p.user ∧
    (accountProc page_size_kb prev cur_snap total_diff pid p).cmd = p.cmd ∧
    (accountProc page_size_kb prev cur_snap total_diff pid p).utime = p.utime ∧
    (accountProc page_size_kb prev cur_snap total_diff pid p).stime = p.stime ∧
    (accountProc page_size_kb prev cur_snap total_diff pid p).cutime = p.cutime ∧
    (accountProc page_size_kb prev cur_snap total_diff pid p).cstime = p.cstime ∧
    (accountProc page_size_kb prev cur_snap total_diff pid p).total_time = p.total_time ∧
    (accountProc page_size_kb prev cur_snap total_diff pid p).vsize = p.vsize ∧
    (accountProc page_size_kb prev cur_snap total_diff pid p).rss = p.rss ∧
    (accountProc page_size_kb prev cur_snap total_diff pid p).starttime = p.starttime := by
  simp only [accountProc]
  cases prev.lookup pid with
  | none => split <;> simp
  | some q =>
      by_cases h : total_diff > 0 <;> simp [h] <;> split <;> simp

/-- The clamped tick delta, written with the `if` of the source, cast to
`ℚ`, equals the claim's `max 0 (cur - prev)` over the integers. -/
theorem clamped_diff_cast (a b : ℕ) :
    (((if a ≥ b then a - b else 0 : ℕ)) : ℚ) =
      ((max 0 ((a : ℤ) - (b : ℤ)) : ℤ) : ℚ) := by
  by_cases h : a ≥ b
  · rw [if_pos h, max_eq_right (by omega : (0 : ℤ) ≤ (a : ℤ) - (b : ℤ))]
    push_cast [h]
    ring
  · rw [if_neg h, max_eq_left (by omega : (a : ℤ) - (b : ℤ) ≤ 0)]
    have hb : a - b = 0 := by omega
    simp [hb]

/-- The source's clamped delta is exactly truncated `Nat` subtraction. -/
theorem clamped_diff_eq_sub (a b : ℕ) :
    (if a ≥ b then a - b else 0) = a - b := by
  split <;> omega

/-! ### Claim theorems -/

/-- C1: for a process present in both snapshots, with a positive system
total-tick delta, the accountant sets `cpu_percent` to
`max 0 (currentTicks - previousTicks) / totalTickDelta * 100 * cpuCount`. -/
theorem claim_C1_cpu_formula
    (page_size_kb : Int) (procs prev : ProcMap)
    (cur_snap prev_snap : SystemSnapshot) (pid : Int) (p q : ProcInfo)
    (hp : procs.lookup pid = some p)
    (hq : prev.lookup pid = some q)
    (hd : 0 < totalDiff cur_snap prev_snap) :
    ∃ r, (compute_cpu_mem_percent page_size_kb procs prev cur_snap prev_snap).lookup pid
        = some r ∧
      r.cpu_percent =
        ((max 0 ((p.total_time : ℤ) - (q.total_time : ℤ)) : ℤ) : ℚ)
          / (totalDiff cur_snap prev_snap : ℚ) * 100 * (cur_snap.num_cpus : ℚ) := by
  refine ⟨_, by rw [compute_lookup, hp]; rfl, ?_⟩
  rw [accountProc_cpu_percent, hq]
  simp only [hd, if_pos]
  rw [clamped_diff_cast]

/-- Witness for C1: system jiffies 1000 → 1100, process ticks 50 → 80,
2 cpus gives exactly 60; regressing ticks 80 → 50 give exactly 0. -/
theorem claim_C1_cpu_formula_witness :
    (0 < totalDiff { total_jiffies := 1100, num_cpus := 2 } { total_jiffies := 1000 }) ∧
    (∃ r, (compute_cpu_mem_percent 4 [(1, { total_time := 80 })] [(1, { total_time := 50 })]
        { total_jiffies := 1100, num_cpus := 2 } { total_jiffies := 1000 }).lookup 1
          = some r ∧ r.cpu_percent = 60) ∧
    (∃ r, (compute_cpu_mem_percent 4 [(1, { total_time := 50 })] [(1, { total_time := 80 })]
        { total_jiffies := 1100, num_cpus := 2 } { total_jiffies := 1000 }).lookup 1
          = some r ∧ r.cpu_percent = 0) := by
  refine ⟨by decide, ?_, ?_⟩
  · obtain ⟨r, hr, he⟩ := claim_C1_cpu_formula 4 [(1, { total_time := 80 })]
      [(1, { total_time := 50 })] { total_jiffies := 1100, num_cpus := 2 }
      { total_jiffies := 1000 } 1 { total_time := 80 } { total_time := 50 }
      (by decide) (by decide) (by decide)
    exact ⟨r, hr, by rw [he]; norm_num [totalDiff]⟩
  · obtain ⟨r, hr, he⟩ := claim_C1_cpu_formula 4 [(1, { total_time := 50 })]
      [(1, { total_time := 80 })] { total_jiffies := 1100, num_cpus := 2 }
      { total_jiffies := 1000 } 1 { total_time := 50 } { total_time := 80 }
      (by decide) (by decide) (by decide)
    exact ⟨r, hr, by rw [he]; norm_num [totalDiff]⟩

/-- Scaled-ratio bound: a nonnegative numerator at most the positive
denominator gives a percentage in `[0, 100]`. -/
theorem ratio_percent_bounds (a b : ℚ) (ha : 0 ≤ a) (hab : a ≤ b) (hb : 0 < b) :
    0 ≤ a / b * 100 ∧ a / b * 100 ≤ 100 := by
  constructor
  · have := div_nonneg ha hb.le
    nlinarith
  · have h1 : a / b ≤ 1 := (div_le_one hb).mpr hab
    nlinarith

/-- C2 as stated is false: the code does not clamp either percentage
from above.  With system jiffies 1000 → 1100 (delta 100), one cpu, a
process whose ticks advance by 200, resident size 1000 pages of 4 KB
against 100 KB total memory, the output has `cpu_percent = 200 > 100`
and `mem_percent = 4000 > 100`. -/
theorem claim_C2_counterexample :
    ∃ r, (compute_cpu_mem_percent 4 [(1, { total_time := 200, rss := 1000 })]
        [(1, { total_time := 0 })]
        { total_jiffies := 1100, mem_total_kb := 100, num_cpus := 1 }
        { total_jiffies := 1000 }).lookup 1 = some r ∧
      r.cpu_percent = 200 ∧ ¬ r.cpu_percent ≤ 100 * (1 : ℚ) ∧
      r.mem_percent = 4000 ∧ ¬ r.mem_percent ≤ 100 := by
  refine ⟨_, rfl, ?_, ?_, ?_, ?_⟩ <;>
    simp only [accountProc, totalDiff, List.lookup] <;> norm_num

/-- C2, amended: the lower bounds are unconditional in spirit but the
upper bounds need the physical side conditions the sampler's sources
provide — at least one cpu, nonnegative page size and resident size,
per-process clamped tick delta at most the total tick delta, and
resident kilobytes at most total memory.  Under these, every output
entry has `cpu_percent ∈ [0, 100 * num_cpus]` and
`mem_percent ∈ [0, 100]`. -/
theorem claim_C2_bounds
    (page_size_kb : Int) (procs prev : ProcMap)
    (cur_snap prev_snap : SystemSnapshot)
    (hcpus : 1 ≤ cur_snap.num_cpus)
    (hps : 0 ≤ page_size_kb)
    (hwf : ∀ kv ∈ procs, 0 ≤ kv.2.rss ∧
      kv.2.rss * page_size_kb ≤ (cur_snap.mem_total_kb : Int) ∧
      ∀ q, prev.lookup kv.1 = some q →
        kv.2.total_time - q.total_time ≤ totalDiff cur_snap prev_snap) :
    ∀ pid r,
      (pid, r) ∈ compute_cpu_mem_percent page_size_kb procs prev cur_snap prev_snap →
      0 ≤ r.cpu_percent ∧ r.cpu_percent ≤ 100 * (cur_snap.num_cpus : ℚ) ∧
      0 ≤ r.mem_percent ∧ r.mem_percent ≤ 100 := by
  intro pid r hr
  simp only [compute_cpu_mem_percent, List.mem_map] at hr
  obtain ⟨⟨k, v⟩, hkv, heq⟩ := hr
  injection heq with h1 h2
  subst h1
  subst h2
  dsimp only at hkv ⊢
  obtain ⟨hrss, hmem, htick⟩ := hwf (k, v) hkv
  dsimp only at hrss hmem htick
  have hn : (0 : ℚ) ≤ (cur_snap.num_cpus : ℚ) := by
    have h0 : (0 : Int) ≤ cur_snap.num_cpus := le_trans (by norm_num) hcpus
    exact_mod_cast h0
  have hcpu :
      0 ≤ (accountProc page_size_kb prev cur_snap
            (totalDiff cur_snap prev_snap) k v).cpu_percent ∧
      (accountProc page_size_kb prev cur_snap
            (totalDiff cur_snap prev_snap) k v).cpu_percent ≤
        100 * (cur_snap.num_cpus : ℚ) := by
    rw [accountProc_cpu_percent]
    cases hq : prev.lookup k with
    | none =>
        simp only [hq]
        exact ⟨le_refl 0, mul_nonneg (by norm_num) hn⟩
    | some q =>
        simp only [hq]
        by_cases hd : totalDiff cur_snap prev_snap > 0
        · rw [if_pos hd]
          set d : Nat :=
            if v.total_time ≥ q.total_time then v.total_time - q.total_time else 0 with hdef
          have hdle : d ≤ totalDiff cur_snap prev_snap := by
            rw [hdef, clamped_diff_eq_sub]
            exact htick q hq
          have hb : (0 : ℚ) < (totalDiff cur_snap prev_snap : ℚ) := by exact_mod_cast hd
          have hratio := ratio_percent_bounds (d : ℚ) (totalDiff cur_snap prev_snap : ℚ)
            (by positivity) (by exact_mod_cast hdle) hb
          exact ⟨mul_nonneg hratio.1 hn, mul_le_mul_of_nonneg_right hratio.2 hn⟩
        · rw [if_neg hd]
          exact ⟨le_refl 0, mul_nonneg (by norm_num) hn⟩
  have hmemb :
      0 ≤ (accountProc page_size_kb prev cur_snap
            (totalDiff cur_snap prev_snap) k v).mem_percent ∧
      (accountProc page_size_kb prev cur_snap
            (totalDiff cur_snap prev_snap) k v).mem_percent ≤ 100 := by
    rw [accountProc_mem_percent]
    by_cases hM : cur_snap.mem_total_kb > 0
    · rw [if_pos hM]
      have hMq : (0 : ℚ) < (cur_snap.mem_total_kb : ℚ) := by exact_mod_cast hM
      have hnum : (0 : ℚ) ≤ ((v.rss * page_size_kb : Int) : ℚ) := by
        have h0 : (0 : Int) ≤ v.rss * page_size_kb := mul_nonneg hrss hps
        exact_mod_cast h0
      have hle : ((v.rss * page_size_kb : Int) : ℚ) ≤ (cur_snap.mem_total_kb : ℚ) := by
        exact_mod_cast hmem
      exact ratio_percent_bounds _ _ hnum hle hMq
    · rw [if_neg hM]
      norm_num
  exact ⟨hcpu.1, hcpu.2, hmemb.1, hmemb.2⟩

/-- Witness for the amended C2 at a concrete well-formed pair:
jiffies 1000 → 1100, 2 cpus, one process with ticks 50 → 80 and 10
resident pages of 4 KB against 1000 KB total memory. -/
theorem claim_C2_bounds_witness :
    ((1 : Int) ≤
      SystemSnapshot.num_cpus { total_jiffies := 1100, mem_total_kb := 1000, num_cpus := 2 }) ∧
    ((0 : Int) ≤ 4) ∧
    (∀ pid r, (pid, r) ∈ compute_cpu_mem_percent 4 [(1, { total_time := 80, rss := 10 })]
        [(1, { total_time := 50 })]
        { total_jiffies := 1100, mem_total_kb := 1000, num_cpus := 2 }
        { total_jiffies := 1000 } →
      0 ≤ r.cpu_percent ∧
      r.cpu_percent ≤ 100 *
        ((SystemSnapshot.num_cpus
          { total_jiffies := 1100, mem_total_kb := 1000, num_cpus := 2 } : Int) : ℚ) ∧
      0 ≤ r.mem_percent ∧ r.mem_percent ≤ 100) := by
  have hwf : ∀ kv ∈ ([(1, { total_time := 80, rss := 10 })] : ProcMap),
      0 ≤ kv.2.rss ∧ kv.2.rss * 4 ≤
        ((SystemSnapshot.mem_total_kb
          { total_jiffies := 1100, mem_total_kb := 1000, num_cpus := 2 } : Nat) : Int) ∧
      ∀ q, ([(1, { total_time := 50 })] : ProcMap).lookup kv.1 = some q →
        kv.2.total_time - q.total_time ≤
          totalDiff { total_jiffies := 1100, mem_total_kb := 1000, num_cpus := 2 }
            { total_jiffies := 1000 } := by
    intro kv hkv
    simp only [List.mem_singleton] at hkv
    subst hkv
    refine ⟨by decide, by decide, ?_⟩
    intro q hq
    simp only [List.lookup] at hq
    norm_num at hq
    subst hq
    decide
  exact ⟨by decide, by decide,
    claim_C2_bounds 4 [(1, { total_time := 80, rss := 10 })] [(1, { total_time := 50 })]
      { total_jiffies := 1100, mem_total_kb := 1000, num_cpus := 2 }
      { total_jiffies := 1000 } (by decide) (by decide) hwf⟩

/-- C3: when the system total-tick delta is zero, every output entry has
`cpu_percent = 0`, whatever the per-process tick deltas are; the guarded
branch never divides. -/
theorem claim_C3_zero_total_delta
    (page_size_kb : Int) (procs prev : ProcMap)
    (cur_snap prev_snap : SystemSnapshot)
    (hd : totalDiff cur_snap prev_snap = 0) :
    ∀ pid r,
      (pid, r) ∈ compute_cpu_mem_percent page_size_kb procs prev cur_snap prev_snap →
      r.cpu_percent = 0 := by
  intro pid r hr
  simp only [compute_cpu_mem_percent, List.mem_map] at hr
  obtain ⟨⟨k, v⟩, hkv, heq⟩ := hr
  injection heq with h1 h2
  subst h1
  subst h2
  dsimp only
  rw [accountProc_cpu_percent]
  cases hq : prev.lookup k with
  | none => simp [hq]
  | some q => simp [hq, hd]

/-- Witness for C3: identical total jiffies (delta 0) with a process
whose own ticks advanced by 999 still gives `cpu_percent = 0`. -/
theorem claim_C3_zero_total_delta_witness :
    (totalDiff { total_jiffies := 1000, num_cpus := 2 }
      { total_jiffies := 1000 } = 0) ∧
    (∀ pid r, (pid, r) ∈ compute_cpu_mem_percent 4 [(1, { total_time := 999 })]
        [(1, { total_time := 0 })] { total_jiffies := 1000, num_cpus := 2 }
        { total_jiffies := 1000 } →
      r.cpu_percent = 0) :=
  ⟨by decide,
    claim_C3_zero_total_delta 4 [(1, { total_time := 999 })] [(1, { total_time := 0 })]
      { total_jiffies := 1000, num_cpus := 2 } { total_jiffies := 1000 } (by decide)⟩

/-- C4: a process whose pid is absent from the previous process map gets
`cpu_percent = 0` for this cycle. -/
theorem claim_C4_new_process
    (page_size_kb : Int) (procs prev : ProcMap)
    (cur_snap prev_snap : SystemSnapshot) (pid : Int) (r : ProcInfo)
    (hq : prev.lookup pid = none)
    (hr : (compute_cpu_mem_percent page_size_kb procs prev cur_snap prev_snap).lookup pid
        = some r) :
    r.cpu_percent = 0 := by
  rw [compute_lookup] at hr
  cases hp : procs.lookup pid with
  | none => rw [hp] at hr; cases hr
  | some p =>
      rw [hp] at hr
      injection hr with hr
      rw [← hr, accountProc_cpu_percent, hq]

/-- Witness for C4: a process appearing only in the current sample with
ticks 20 (pid 2, absent from the previous map) gets `cpu_percent = 0`,
even though the total delta is positive. -/
theorem claim_C4_new_process_witness :
    (([(1, ({ total_time := 50 } : ProcInfo))] : ProcMap).lookup 2 = none) ∧
    (∃ r, (compute_cpu_mem_percent 4 [(2, { total_time := 20 })]
        [(1, { total_time := 50 })] { total_jiffies := 1100, num_cpus := 2 }
        { total_jiffies := 1000 }).lookup 2 = some r ∧ r.cpu_percent = 0) := by
  refine ⟨by decide, ?_⟩
  obtain ⟨r, hr⟩ : ∃ r, (compute_cpu_mem_percent 4 [(2, { total_time := 20 })]
      [(1, { total_time := 50 })] { total_jiffies := 1100, num_cpus := 2 }
      { total_jiffies := 1000 }).lookup 2 = some r := ⟨_, rfl⟩
  exact ⟨r, hr, claim_C4_new_process 4 [(2, { total_time := 20 })]
    [(1, { total_time := 50 })] { total_jiffies := 1100, num_cpus := 2 }
    { total_jiffies := 1000 } 2 r (by decide) hr⟩

/-- C5: `mem_percent` is `residentPages * pageSizeKB / totalMemoryKB * 100`
when the current snapshot's total memory is positive, and a defined `0`
when total memory is zero. -/
theorem claim_C5_mem_formula
    (page_size_kb : Int) (procs prev : ProcMap)
    (cur_snap prev_snap : SystemSnapshot) (pid : Int) (p r : ProcInfo)
    (hp : procs.lookup pid = some p)
    (hr : (compute_cpu_mem_percent page_size_kb procs prev cur_snap prev_snap).lookup pid
        = some r) :
    (0 < cur_snap.mem_total_kb →
      r.mem_percent = ((p.rss * page_size_kb : Int) : ℚ) / (cur_snap.mem_total_kb : ℚ) * 100) ∧
    (cur_snap.mem_total_kb = 0 → r.mem_percent = 0) := by
  rw [compute_lookup, hp] at hr
  injection hr with hr
  rw [← hr, accountProc_mem_percent]
  constructor
  · intro hM
    rw [if_pos hM]
  · intro hM
    rw [if_neg (by omega)]

/-- Witness for C5: with 10 resident pages of 4 KB against 1000 KB the
formula branch applies; with `mem_total_kb = 0` the result is the
defined zero. -/
theorem claim_C5_mem_formula_witness :
    (∃ r, (compute_cpu_mem_percent 4 [(1, { total_time := 80, rss := 10 })]
        [(1, { total_time := 50 })] { total_jiffies := 1100, mem_total_kb := 1000, num_cpus := 2 }
        { total_jiffies := 1000 }).lookup 1 = some r ∧ r.mem_percent = 4) ∧
    (∃ r, (compute_cpu_mem_percent 4 [(1, { total_time := 80, rss := 10 })]
        [(1, { total_time := 50 })] { total_jiffies := 1100, mem_total_kb := 0, num_cpus := 2 }
        { total_jiffies := 1000 }).lookup 1 = some r ∧ r.mem_percent = 0) := by
  constructor
  · obtain ⟨r, hr⟩ : ∃ r, (compute_cpu_mem_percent 4 [(1, { total_time := 80, rss := 10 })]
        [(1, { total_time := 50 })] { total_jiffies := 1100, mem_total_kb := 1000, num_cpus := 2 }
        { total_jiffies := 1000 }).lookup 1 = some r := ⟨_, rfl⟩
    have h := claim_C5_mem_formula 4 [(1, { total_time := 80, rss := 10 })]
      [(1, { total_time := 50 })] { total_jiffies := 1100, mem_total_kb := 1000, num_cpus := 2 }
      { total_jiffies := 1000 } 1 { total_time := 80, rss := 10 } r (by decide) hr
    refine ⟨r, hr, ?_⟩
    rw [h.1 (by decide)]
    norm_num
  · obtain ⟨r, hr⟩ : ∃ r, (compute_cpu_mem_percent 4 [(1, { total_time := 80, rss := 10 })]
        [(1, { total_time := 50 })] { total_jiffies := 1100, mem_total_kb := 0, num_cpus := 2 }
        { total_jiffies := 1000 }).lookup 1 = some r := ⟨_, rfl⟩
    have h := claim_C5_mem_formula 4 [(1, { total_time := 80, rss := 10 })]
      [(1, { total_time := 50 })] { total_jiffies := 1100, mem_total_kb := 0, num_cpus := 2 }
      { total_jiffies := 1000 } 1 { total_time := 80, rss := 10 } r (by decide) hr
    exact ⟨r, hr, h.2 (by decide)⟩

/-- C6: the output is built only from the current map's entries: its key
sequence is exactly the current one, so a pid absent from the current
map (for instance one present only in the previous map, a terminated
process) is absent from the output. -/
theorem claim_C6_only_current
    (page_size_kb : Int) (procs prev : ProcMap)
    (cur_snap prev_snap : SystemSnapshot) :
    ((compute_cpu_mem_percent page_size_kb procs prev cur_snap prev_snap).map Prod.fst
      = procs.map Prod.fst) ∧
    ∀ pid, procs.lookup pid = none →
      (compute_cpu_mem_percent page_size_kb procs prev cur_snap prev_snap).lookup pid
        = none := by
  constructor
  · simp only [compute_cpu_mem_percent, List.map_map]
    rfl
  · intro pid hp
    rw [compute_lookup, hp]
    rfl

/-- Witness for C6: pid 1 exists only in the previous map; it does not
appear in the accounted output. -/
theorem claim_C6_only_current_witness :
    (([(2, ({ total_time := 20 } : ProcInfo))] : ProcMap).lookup 1 = none) ∧
    ((compute_cpu_mem_percent 4 [(2, { total_time := 20 })] [(1, { total_time := 50 })]
        { total_jiffies := 1100, num_cpus := 2 } { total_jiffies := 1000 }).lookup 1
      = none) :=
  ⟨by decide,
    (claim_C6_only_current 4 [(2, { total_time := 20 })] [(1, { total_time := 50 })]
      { total_jiffies := 1100, num_cpus := 2 } { total_jiffies := 1000 }).2 1 (by decide)⟩

/-- One scroll step keeps the offset nonnegative. -/
theorem pageStep_nonneg (pageSize : Int) (count : Nat) (offset : Int) (k : Key)
    (h : 0 ≤ offset) : 0 ≤ pageStep pageSize count offset k := by
  cases k <;> simp only [pageStep]
  · split <;> omega
  · split <;> omega
  · exact h

/-- One scroll step at a fixed list length keeps the offset below
`max 0 (count - pageSize)`. -/
theorem pageStep_le (pageSize : Int) (count : Nat) (offset : Int) (k : Key)
    (h0 : 0 ≤ offset) (h : offset ≤ max 0 ((count : Int) - pageSize)) :
    pageStep pageSize count offset k ≤ max 0 ((count : Int) - pageSize) := by
  rcases le_or_lt 0 ((count : Int) - pageSize) with hcp | hcp
  · rw [max_eq_right hcp] at h ⊢
    cases k <;> simp only [pageStep]
    · split <;> omega
    · split <;> omega
    · exact h
  · rw [max_eq_left hcp.le] at h ⊢
    cases k <;> simp only [pageStep]
    · split <;> omega
    · split <;> omega
    · exact h

/-- Folding scroll steps from a nonnegative offset stays nonnegative,
whatever the per-cycle list lengths are. -/
theorem foldOffsets_nonneg (pageSize : Int) :
    ∀ (events : List (Nat × Key)) (offset : Int), 0 ≤ offset →
      0 ≤ events.foldl (fun off e => pageStep pageSize e.1 off e.2) offset := by
  intro events
  induction events with
  | nil => intro offset h; exact h
  | cons e t ih =>
      intro offset h
      exact ih _ (pageStep_nonneg pageSize e.1 offset e.2 h)

/-- Folding scroll steps over cycles that all carry the same list length
`c` preserves the window invariant. -/
theorem foldOffsets_le (pageSize : Int) (c : Nat) :
    ∀ (events : List (Nat × Key)) (offset : Int),
      (∀ e ∈ events, e.1 = c) → 0 ≤ offset →
      offset ≤ max 0 ((c : Int) - pageSize) →
      events.foldl (fun off e => pageStep pageSize e.1 off e.2) offset ≤
        max 0 ((c : Int) - pageSize) := by
  intro events
  induction events with
  | nil => intro offset _ _ h; exact h
  | cons e t ih =>
      intro offset hc h0 h
      have he : e.1 = c := hc e (List.mem_cons_self e t)
      have hb : pageStep pageSize e.1 offset e.2 ≤ max 0 ((c : Int) - pageSize) := by
        rw [he]
        exact pageStep_le pageSize c offset e.2 h0 h
      exact ih _ (fun x hx => hc x (List.mem_cons_of_mem e hx))
        (pageStep_nonneg pageSize e.1 offset e.2 h0) hb

/-- C7 as stated is false: the offset is never re-clamped when the list
shrinks.  With a one-row window (`pageSize = 1`) and a 3-element list,
two scroll-downs put the offset at 2; if the next cycle's list has only
1 element, that cycle draws with offset 2, outside
`[0, max 0 (1 - 1)] = [0, 0]` — and no key leaves it there. -/
theorem claim_C7_counterexample :
    runOffsets 1 [(3, Key.down), (3, Key.down)] = 2 ∧
    ¬ runOffsets 1 [(3, Key.down), (3, Key.down)] ≤ max 0 ((1 : Int) - 1) ∧
    runOffsets 1 [(3, Key.down), (3, Key.down), (1, Key.other)] = 2 := by
  refine ⟨by decide, ?_, by decide⟩
  rw [show runOffsets 1 [(3, Key.down), (3, Key.down)] = 2 from by decide]
  decide

/-- C7, amended: the offset never goes negative, and the upper clamp
`offset ≤ max 0 (count - pageSize)` holds as long as the list length
stays constant across the cycles; the code does not restore it after
the list shrinks. -/
theorem claim_C7_offset_bounds :
    (∀ (pageSize : Int) (events : List (Nat × Key)),
      0 ≤ runOffsets pageSize events) ∧
    (∀ (pageSize : Int) (c : Nat) (events : List (Nat × Key)),
      (∀ e ∈ events, e.1 = c) →
      runOffsets pageSize events ≤ max 0 ((c : Int) - pageSize)) := by
  constructor
  · intro pageSize events
    exact foldOffsets_nonneg pageSize events 0 (le_refl 0)
  · intro pageSize c events hc
    exact foldOffsets_le pageSize c events 0 hc (le_refl 0) (le_max_left 0 _)

/-- Witness for the amended C7: three scroll-downs over a constant
3-element list with a one-row window stay within `[0, max 0 (3 - 1)]`. -/
theorem claim_C7_offset_bounds_witness :
    (∀ e ∈ [((3 : Nat), Key.down), (3, Key.down), (3, Key.down)], e.1 = 3) ∧
    0 ≤ runOffsets 1 [(3, Key.down), (3, Key.down), (3, Key.down)] ∧
    runOffsets 1 [(3, Key.down), (3, Key.down), (3, Key.down)] ≤ max 0 ((3 : Int) - 1) :=
  ⟨by decide,
    claim_C7_offset_bounds.1 1 [(3, Key.down), (3, Key.down), (3, Key.down)],
    claim_C7_offset_bounds.2 1 3 [(3, Key.down), (3, Key.down), (3, Key.down)] (by decide)⟩

/-- C8: the derived cpu count is at least 1, whatever `/proc/cpuinfo`
contains; in particular a file with no `processor` line (count 0) still
gives 1. -/
theorem claim_C8_num_cpus :
    (∀ lines : List String, 1 ≤ derive_num_cpus lines) ∧
    derive_num_cpus [] = 1 :=
  ⟨fun _ => le_max_left 1 _, rfl⟩

/-- C9: the accountant is frame-preserving on its inputs: embedded as a
pure function it returns, for every current entry, a record agreeing
with the input on every field except the two derived percentages (the
previous map and both snapshots are taken by value and untouched). -/
theorem claim_C9_frame
    (page_size_kb : Int) (procs prev : ProcMap)
    (cur_snap prev_snap : SystemSnapshot) (pid : Int) (p : ProcInfo)
    (hp : procs.lookup pid = some p) :
    ∃ r, (compute_cpu_mem_percent page_size_kb procs prev cur_snap prev_snap).lookup pid
        = some r ∧
      r.pid = p.pid ∧ r.user = p.user ∧ r.cmd = p.cmd ∧
      r.utime = p.utime ∧ r.stime = p.stime ∧ r.cutime = p.cutime ∧
      r.cstime = p.cstime ∧ r.total_time = p.total_time ∧
      r.vsize = p.vsize ∧ r.rss = p.rss ∧ r.starttime = p.starttime := by
  refine ⟨_, by rw [compute_lookup, hp]; rfl, ?_⟩
  exact accountProc_frame page_size_kb prev cur_snap (totalDiff cur_snap prev_snap) pid p

/-- Witness for C9 at a concrete entry: every non-derived field of the
output record matches the input record. -/
theorem claim_C9_frame_witness :
    (([(1, ({ pid := 1, cmd := "sysmon", total_time := 80, vsize := 7, rss := 10, starttime := 5 } : ProcInfo))] : ProcMap).lookup 1
      = some { pid := 1, cmd := "sysmon", total_time := 80, vsize := 7, rss := 10, starttime := 5 }) ∧
    (∃ r, (compute_cpu_mem_percent 4
        [(1, { pid := 1, cmd := "sysmon", total_time := 80, vsize := 7, rss := 10, starttime := 5 })]
        [(1, { total_time := 50 })]
        { total_jiffies := 1100, mem_total_kb := 1000, num_cpus := 2 }
        { total_jiffies := 1000 }).lookup 1 = some r ∧
      r.pid = 1 ∧ r.cmd = "sysmon" ∧ r.total_time = 80 ∧ r.vsize = 7 ∧
      r.rss = 10 ∧ r.starttime = 5) := by
  refine ⟨by decide, ?_⟩
  obtain ⟨r, hr, h⟩ := claim_C9_frame 4
    [(1, { pid := 1, cmd := "sysmon", total_time := 80, vsize := 7, rss := 10, starttime := 5 })]
    [(1, { total_time := 50 })]
    { total_jiffies := 1100, mem_total_kb := 1000, num_cpus := 2 }
    { total_jiffies := 1000 } 1
    { pid := 1, cmd := "sysmon", total_time := 80, vsize := 7, rss := 10, starttime := 5 }
    (by decide)
  exact ⟨r, hr, h.1, h.2.2.1, h.2.2.2.2.2.2.2.1, h.2.2.2.2.2.2.2.2.1,
    h.2.2.2.2.2.2.2.2.2.1, h.2.2.2.2.2.2.2.2.2.2⟩

/-- C10: `mem_percent` is independent of the previous process map and
previous system snapshot: two runs over the same current data agree on
it for every pid. -/
theorem claim_C10_mem_noninterference
    (page_size_kb : Int) (procs prevA prevB : ProcMap)
    (cur_snap prev_snapA prev_snapB : SystemSnapshot) (pid : Int) (rA rB : ProcInfo)
    (hA : (compute_cpu_mem_percent page_size_kb procs prevA cur_snap prev_snapA).lookup pid
        = some rA)
    (hB : (compute_cpu_mem_percent page_size_kb procs prevB cur_snap prev_snapB).lookup pid
        = some rB) :
    rA.mem_percent = rB.mem_percent := by
  rw [compute_lookup] at hA hB
  cases hp : procs.lookup pid with
  | none => rw [hp] at hA; cases hA
  | some p =>
      rw [hp] at hA hB
      injection hA with hA
      injection hB with hB
      rw [← hA, ← hB, accountProc_mem_percent, accountProc_mem_percent]

/-- Witness for C10: same current data, one run with a previous entry
for pid 1 and one with an empty previous map and a different previous
snapshot; the memory percentages agree (both 4), while the second run's
`cpu_percent` is 0 yet its `mem_percent` is not forced to 0. -/
theorem claim_C10_mem_noninterference_witness :
    ∃ rA rB,
      (compute_cpu_mem_percent 4 [(1, { total_time := 80, rss := 10 })]
        [(1, { total_time := 50 })]
        { total_jiffies := 1100, mem_total_kb := 1000, num_cpus := 2 }
        { total_jiffies := 1000 }).lookup 1 = some rA ∧
      (compute_cpu_mem_percent 4 [(1, { total_time := 80, rss := 10 })] []
        { total_jiffies := 1100, mem_total_kb := 1000, num_cpus := 2 }
        { total_jiffies := 900 }).lookup 1 = some rB ∧
      rA.mem_percent = rB.mem_percent ∧ rB.cpu_percent = 0 ∧ ¬ rB.mem_percent = 0 := by
  refine ⟨_, _, rfl, rfl,
    claim_C10_mem_noninterference 4 [(1, { total_time := 80, rss := 10 })]
      [(1, { total_time := 50 })] []
      { total_jiffies := 1100, mem_total_kb := 1000, num_cpus := 2 }
      { total_jiffies := 1000 } { total_jiffies := 900 } 1 _ _ rfl rfl, ?_, ?_⟩
  · rw [accountProc_cpu_percent]
    rfl
  · rw [accountProc_mem_percent]
    norm_num

end SysMon
